import Mathlib

/-!
Shallow embedding of the PHARMACYAI2025 repository (three Python files:
`multi-agent.py`, `ai_agent_create.py`, `ai_agent_existing.py`).

The remote Azure agent service, the SERP HTTP endpoint and the credential
provider are external collaborators; each remote call's outcome is supplied
by an environment record (`Env` for the pipeline, `EnvS` for the two
single-agent flows).  Each flow is embedded as a function from its
environment to the pair (list of observable events, final outcome),
following the Python control flow statement by statement: an `Except.error`
in an environment field models the corresponding awaited call raising an
exception, and the embedding propagates it exactly where the Python would.
-/

namespace PharmacyAI

/-- One item of the SERP JSON `organic_results` collection; `snippet` is
`none` when the key is absent (`item.get("snippet")` returns `None`). -/
structure SerpItem where
  snippet : Option String
deriving Repr, DecidableEq

/-- The parsed SERP JSON body; `organic_results` is `none` when the key is
absent (`"organic_results" in result` is false). -/
structure SerpResult where
  organic_results : Option (List SerpItem)
deriving Repr, DecidableEq

/-- The snippet-collection loop of `search_web` (multi-agent.py lines
41-46): iterate over `organic_results` in order, keeping each `snippet`
that is present and truthy (a `None` or empty-string snippet is falsy in
Python and is skipped). -/
def collectSnippets (r : SerpResult) : List String :=
  match r.organic_results with
  | some items =>
      items.filterMap (fun it =>
        match it.snippet with
        | some s => if s = "" then none else some s
        | none => none)
  | none => []

/-- Python's `"\n".join(snippets)`. -/
def joinN : List String → String
  | [] => ""
  | [s] => s
  | s :: r₂ :: rest => s ++ "\n" ++ joinN (r₂ :: rest)

/-- The pure tail of `search_web` (multi-agent.py lines 41-48): given the
parsed JSON body, return the newline-joined snippets, or the sentinel
`"No results found."` when no snippet was collected.  (The network request
itself is modelled in the pipeline environment; a transport failure there
never reaches this function, exactly as an `aiohttp` exception never
reaches line 48.) -/
def search_web (r : SerpResult) : String :=
  let snippets := collectSnippets r
  if snippets ≠ [] then joinN snippets else "No results found."

/-- Every collected snippet is a non-empty string. -/
theorem mem_collectSnippets_ne_empty {r : SerpResult} {s : String}
    (h : s ∈ collectSnippets r) : s ≠ "" := by
  unfold collectSnippets at h
  rcases r with ⟨_ | items⟩
  · simp at h
  · simp only [List.mem_filterMap] at h
    obtain ⟨it, _, hit⟩ := h
    rcases it with ⟨_ | sn⟩
    · simp at hit
    · by_cases hs : sn = "" <;> simp [hs] at hit
      rcases hit with rfl
      exact hs

/-- `joinN` of a list headed by a non-empty string is non-empty. -/
theorem joinN_ne_empty {s : String} {rest : List String} (hs : s ≠ "") :
    joinN (s :: rest) ≠ "" := by
  match rest with
  | [] => simpa [joinN] using hs
  | r₂ :: rest' =>
      simp only [joinN]
      intro hcontra
      have h := congrArg String.data hcontra
      simp [String.data_append, List.append_eq_nil] at h

/-- C3: for every parsed search response, `search_web` returns either the
newline-joined digest of the collected (non-empty) snippets — itself a
non-empty string — or the literal sentinel `"No results found."`; it never
returns the empty string. -/
theorem search_web_never_empty (r : SerpResult) :
    search_web r ≠ "" ∧
      ((search_web r = joinN (collectSnippets r) ∧ collectSnippets r ≠ []) ∨
        search_web r = "No results found.") := by
  unfold search_web
  cases hc : collectSnippets r with
  | nil =>
      refine ⟨?_, Or.inr (by simp)⟩
      simp
  | cons s rest =>
      have hs : s ≠ "" := mem_collectSnippets_ne_empty (hc ▸ List.mem_cons_self s rest)
      refine ⟨?_, Or.inl ⟨by simp [hc], by simp⟩⟩
      simpa [hc] using joinN_ne_empty hs

/-- Observable actions of a run, in execution order: remote agent-service
calls and standard-output prints.  `createThreadE` is recorded only when
`create_thread` succeeds (a session actually opened); `deleteThreadE` is
recorded on every `delete_thread` attempt, succeeding or not. -/
inductive Event where
  | getAgentE (aid : String)
  | createAgentE (name : String)
  | createThreadE (tid : Nat)
  | addMessageE (tid : Nat) (msg : String)
  | printedE (s : String)
  | deleteThreadE (tid : Nat)
  | deleteAgentE (aid : String)
deriving Repr, DecidableEq

/-- How a flow's `main` terminates: `configAbort` is the caught
initialization error (`except ... return`, a normal return), `raised e` is
an uncaught exception propagating out of `asyncio.run` (the interpreter
then exits non-zero), `success` is a normal completion. -/
inductive Outcome where
  | configAbort
  | raised (e : String)
  | success
deriving Repr, DecidableEq

/-- The process exit code produced by each termination mode of
`asyncio.run(main())`: a normal return of `main` exits 0; an uncaught
exception exits 1. -/
def exitCodeOf : Outcome → Nat
  | .configAbort => 0
  | .raised _ => 1
  | .success => 0

/-- Agent identifiers hard-coded at the top of multi-agent.py. -/
def AGENT1_ID : String := "xxxxx"

def AGENT2_ID : String := "xxxxxx"

def AGENT3_ID : String := "xxxxxx"

/-- Environment of one pipeline run (multi-agent.py): the outcome the
external world gives to each awaited call.  `createThread k` is the result
of the (k+1)-th `create_thread()` call; `serp` is the SERP HTTP
request/JSON-parse step feeding `search_web` (an `error` models an
`aiohttp` exception: connection failure or an unparseable non-2xx body). -/
structure Env where
  projectClient : Except String Unit
  getAgent : String → Except String String
  createThread : Nat → Except String Nat
  addMessage : Nat → String → Except String Unit
  getResponse : Nat → Except String String
  serp : Except String SerpResult
  deleteThread : Nat → Except String Unit

/-- The cleanup loop of multi-agent.py (lines 117-122): for each thread,
attempt `delete_thread`; a failure is caught and printed, and the loop
continues with the next thread. -/
def cleanupThreads (env : Env) : List Nat → List Event
  | [] => []
  | t :: ts =>
      (match env.deleteThread t with
        | .ok _ => [Event.deleteThreadE t]
        | .error e =>
            [Event.deleteThreadE t,
             Event.printedE ("❌ Error deleting thread " ++ toString t ++ ": " ++ e)])
      ++ cleanupThreads env ts

/-- The message posted to the web-search agent (multi-agent.py line 95). -/
def webMessage (q webResults : String) : String :=
  "Web search results for '" ++ q ++ "':\n" ++ webResults

/-- The `combined_info` template for the summary agent (multi-agent.py
lines 104-107): labeled sections from the document and web stages,
separated by a blank line. -/
def combined_info (respDoc respWeb : String) : String :=
  "Document Agent info: " ++ respDoc ++ "\n\n" ++ "Web Agent info: " ++ respWeb

/-- The `main` coroutine of multi-agent.py, given the user's query `q`:
initialize the project client (caught on failure), resolve the three agent
definitions, then run the three stages in order — each stage creates a
thread, posts its message and awaits the response, printing it — with the
SERP search between stages 1 and 2, and finally the best-effort thread
cleanup loop.  Any uncaught exception propagates immediately: the events
after it never happen. -/
def mainRun (env : Env) (q : String) : List Event × Outcome :=
  match env.projectClient with
  | .error e =>
      ([Event.printedE ("❌ Error initializing project client: " ++ e)], .configAbort)
  | .ok _ =>
  let ev0 := [Event.printedE "✅ Project client initialized."]
  match env.getAgent AGENT1_ID with
  | .error e => (ev0 ++ [Event.getAgentE AGENT1_ID], .raised e)
  | .ok _ =>
  let ev1 := ev0 ++ [Event.getAgentE AGENT1_ID]
  match env.getAgent AGENT2_ID with
  | .error e => (ev1 ++ [Event.getAgentE AGENT2_ID], .raised e)
  | .ok _ =>
  let ev2 := ev1 ++ [Event.getAgentE AGENT2_ID]
  match env.getAgent AGENT3_ID with
  | .error e => (ev2 ++ [Event.getAgentE AGENT3_ID], .raised e)
  | .ok _ =>
  let ev3 := ev2 ++ [Event.getAgentE AGENT3_ID]
  match env.createThread 0 with
  | .error e => (ev3, .raised e)
  | .ok t1 =>
  let ev4 := ev3 ++ [Event.createThreadE t1]
  match env.addMessage t1 q with
  | .error e => (ev4, .raised e)
  | .ok _ =>
  let ev5 := ev4 ++ [Event.addMessageE t1 q]
  match env.getResponse t1 with
  | .error e => (ev5, .raised e)
  | .ok respDoc =>
  let ev6 := ev5 ++ [Event.printedE "[Document Search Agent Response]",
                     Event.printedE respDoc]
  match env.serp with
  | .error e => (ev6, .raised e)
  | .ok r =>
  let webResults := search_web r
  match env.createThread 1 with
  | .error e => (ev6, .raised e)
  | .ok t2 =>
  let ev7 := ev6 ++ [Event.createThreadE t2]
  match env.addMessage t2 (webMessage q webResults) with
  | .error e => (ev7, .raised e)
  | .ok _ =>
  let ev8 := ev7 ++ [Event.addMessageE t2 (webMessage q webResults)]
  match env.getResponse t2 with
  | .error e => (ev8, .raised e)
  | .ok respWeb =>
  let ev9 := ev8 ++ [Event.printedE "[Web Search Agent Response]",
                     Event.printedE respWeb]
  match env.createThread 2 with
  | .error e => (ev9, .raised e)
  | .ok t3 =>
  let ev10 := ev9 ++ [Event.createThreadE t3]
  match env.addMessage t3 (combined_info respDoc respWeb) with
  | .error e => (ev10, .raised e)
  | .ok _ =>
  let ev11 := ev10 ++ [Event.addMessageE t3 (combined_info respDoc respWeb)]
  match env.getResponse t3 with
  | .error e => (ev11, .raised e)
  | .ok respSum =>
  let ev12 := ev11 ++ [Event.printedE "[Summary Agent Response]",
                       Event.printedE respSum]
  (ev12 ++ cleanupThreads env [t1, t2, t3], .success)

/-- Environment of the two single-agent flows (ai_agent_create.py and
ai_agent_existing.py): one agent, one thread. -/
structure EnvS where
  getAgent : Except String String
  createAgent : Except String String
  createThread : Except String Nat
  addMessage : Nat → String → Except String Unit
  getResponse : Nat → Except String String
  deleteThread : Nat → Except String Unit
  deleteAgent : String → Except String Unit

/-- The query hard-coded in both single-agent flows. -/
def SINGLE_QUERY : String := "Can Azure App Services be integrated with Vnet?"

/-- The `try`-body shared by both single-agent flows (steps 4-5): post the
query, print the user line, await and print the response.  Returns the
events it performed and `none` on success or `some e` when a call raised. -/
def singleTryBody (env : EnvS) (t : Nat) (label : String) :
    List Event × Option String :=
  match env.addMessage t SINGLE_QUERY with
  | .error e => ([], some e)
  | .ok _ =>
  let ev1 := [Event.addMessageE t SINGLE_QUERY,
              Event.printedE ("# User: " ++ SINGLE_QUERY)]
  match env.getResponse t with
  | .error e => (ev1, some e)
  | .ok resp =>
  (ev1 ++ [Event.printedE ("# " ++ label ++ ": " ++ resp)], none)

/-- The `main` coroutine of ai_agent_existing.py: resolve an existing
agent by identifier, open a thread, run the try-body, and in `finally`
delete the thread (no `except`: a deletion failure propagates, replacing
any in-flight exception).  The agent is never deleted. -/
def existingRun (env : EnvS) : List Event × Outcome :=
  match env.getAgent with
  | .error e => ([], .raised e)
  | .ok _ =>
  let ev1 := [Event.getAgentE "xxxxxxx"]
  match env.createThread with
  | .error e => (ev1, .raised e)
  | .ok t =>
  let ev2 := ev1 ++ [Event.createThreadE t]
  let body := singleTryBody env t "Agent"
  let ev3 := ev2 ++ body.1 ++ [Event.deleteThreadE t]
  match env.deleteThread t with
  | .error e => (ev3, .raised e)
  | .ok _ =>
  match body.2 with
  | some e => (ev3, .raised e)
  | none => (ev3, .success)

/-- The `main` coroutine of ai_agent_create.py: provision a new agent,
open a thread, run the try-body, and in `finally` delete the thread and
then the agent, in that order, with no error handling between them: if
`delete_thread` raises, `delete_agent` is never reached and the exception
propagates (replacing any in-flight exception). -/
def createRun (env : EnvS) : List Event × Outcome :=
  match env.createAgent with
  | .error e => ([], .raised e)
  | .ok aid =>
  let ev1 := [Event.createAgentE "TechSupportAdvisor"]
  match env.createThread with
  | .error e => (ev1, .raised e)
  | .ok t =>
  let ev2 := ev1 ++ [Event.createThreadE t]
  let body := singleTryBody env t "TechSupportAdvisor"
  let ev3 := ev2 ++ body.1 ++ [Event.deleteThreadE t]
  match env.deleteThread t with
  | .error e => (ev3, .raised e)
  | .ok _ =>
  let ev4 := ev3 ++ [Event.deleteAgentE aid]
  match env.deleteAgent aid with
  | .error e => (ev4, .raised e)
  | .ok _ =>
  match body.2 with
  | some e => (ev4, .raised e)
  | none => (ev4, .success)

/-- Number of sessions opened in a trace (successful `create_thread`s). -/
def countOpens (tr : List Event) : Nat :=
  tr.countP fun e => match e with | .createThreadE _ => true | _ => false

/-- Number of session-deletion attempts in a trace (`delete_thread`
calls, succeeding or failing). -/
def countCloseAttempts (tr : List Event) : Nat :=
  tr.countP fun e => match e with | .deleteThreadE _ => true | _ => false

/-- A pipeline environment in which every external call succeeds. -/
def envOK : Env where
  projectClient := .ok ()
  getAgent := fun _ => .ok "agentDef"
  createThread := fun k => .ok k
  addMessage := fun _ _ => .ok ()
  getResponse := fun t => if t = 0 then .ok "docR" else if t = 1 then .ok "webR" else .ok "sumR"
  serp := .ok ⟨some [⟨some "snip1"⟩, ⟨none⟩, ⟨some "snip2"⟩]⟩
  deleteThread := fun _ => .ok ()

/-- Like `envOK` but the web-search stage's `get_response` (stage 2's ask,
on thread 1) raises. -/
def envAskFail2 : Env :=
  { envOK with getResponse := fun t => if t = 0 then .ok "docR" else .error "boom" }

/-- Like `envOK` but the summary stage's `get_response` (stage 3's ask, on
thread 2) raises. -/
def envAskFail3 : Env :=
  { envOK with getResponse := fun t =>
      if t = 0 then .ok "docR" else if t = 1 then .ok "webR" else .error "boom3" }

/-- Like `envOK` but the SERP HTTP call raises. -/
def envSerpFail : Env := { envOK with serp := .error "net down" }

/-- Like `envOK` but `AIProjectClient.from_connection_string` raises. -/
def envConfFail : Env := { envOK with projectClient := .error "bad conn" }

/-- Like `envOK` but deleting thread 0 raises during cleanup. -/
def envCleanupFail : Env :=
  { envOK with deleteThread := fun t => if t = 0 then .error "gone" else .ok () }

/-- A single-agent environment in which every external call succeeds. -/
def envSOK : EnvS where
  getAgent := .ok "agentDef"
  createAgent := .ok "agent123"
  createThread := .ok 7
  addMessage := fun _ _ => .ok ()
  getResponse := fun _ => .ok "vnetAnswer"
  deleteThread := fun _ => .ok ()
  deleteAgent := fun _ => .ok ()

/-- Like `envSOK` but `delete_thread` raises during cleanup. -/
def envSDelFail : EnvS := { envSOK with deleteThread := fun _ => .error "gone" }

/-- The cleanup loop opens no session. -/
theorem countOpens_cleanupThreads (env : Env) (ts : List Nat) :
    countOpens (cleanupThreads env ts) = 0 := by
  induction ts with
  | nil => rfl
  | cons t ts ih =>
      unfold cleanupThreads
      cases env.deleteThread t <;>
        simp [countOpens, List.countP_append, List.countP_cons] <;>
        simpa [countOpens] using ih

/-- The cleanup loop attempts exactly one deletion per thread it is
given. -/
theorem countCloseAttempts_cleanupThreads (env : Env) (ts : List Nat) :
    countCloseAttempts (cleanupThreads env ts) = ts.length := by
  induction ts with
  | nil => rfl
  | cons t ts ih =>
      unfold cleanupThreads
      cases env.deleteThread t <;>
        simp [countCloseAttempts, List.countP_append, List.countP_cons] <;>
        simpa [countCloseAttempts] using ih

/-- `countCloseAttempts_cleanupThreads`, restated at the `List.countP`
level so it applies after `countCloseAttempts` has been unfolded. -/
theorem countP_del_cleanupThreads (env : Env) (ts : List Nat) :
    List.countP
      (fun e => match e with | Event.deleteThreadE _ => true | _ => false)
      (cleanupThreads env ts) = ts.length :=
  countCloseAttempts_cleanupThreads env ts

/-- `countOpens_cleanupThreads`, restated at the `List.countP` level. -/
theorem countP_create_cleanupThreads (env : Env) (ts : List Nat) :
    List.countP
      (fun e => match e with | Event.createThreadE _ => true | _ => false)
      (cleanupThreads env ts) = 0 :=
  countOpens_cleanupThreads env ts

/-- C1 counterexample: in the run where stage 2's ask raises, two sessions
were opened but zero `delete_thread` attempts are made — the cleanup loop
at the end of `main` is never reached, refuting the claim that
close-attempts always equal opens. -/
theorem cleanup_completeness_counterexample :
    (mainRun envAskFail2 "q").2 = .raised "boom" ∧
      countOpens (mainRun envAskFail2 "q").1 = 2 ∧
      countCloseAttempts (mainRun envAskFail2 "q").1 = 0 := by
  refine ⟨rfl, rfl, rfl⟩

/-- C1 amended: the pipeline attempts one `delete_thread` per opened
session only on fully successful runs (three opens, three close attempts);
on any run that ends in an uncaught exception, no close is ever attempted,
because the cleanup loop sits after the last stage rather than in a
`finally`. -/
theorem cleanup_completeness_amended (env : Env) (q : String) :
    ((mainRun env q).2 = .success →
      countCloseAttempts (mainRun env q).1 = countOpens (mainRun env q).1 ∧
        countOpens (mainRun env q).1 = 3) ∧
    (∀ e, (mainRun env q).2 = .raised e →
      countCloseAttempts (mainRun env q).1 = 0) := by
  rcases hrun : mainRun env q with ⟨tr, oc⟩
  simp only [mainRun] at hrun
  iterate 16 (all_goals try split at hrun)
  all_goals cases hrun
  all_goals
    simp_all [countOpens, countCloseAttempts, List.countP_append, List.countP_cons,
      countP_del_cleanupThreads, countP_create_cleanupThreads]

/-- C1 amended, witnessed on `envOK` (all calls succeed, outcome
`success`) at query "q". -/
theorem cleanup_completeness_amended_witness :
    (countCloseAttempts (mainRun envOK "q").1 = countOpens (mainRun envOK "q").1 ∧
      countOpens (mainRun envOK "q").1 = 3) ∧
      countCloseAttempts (mainRun envAskFail3 "q").1 = 0 :=
  ⟨(cleanup_completeness_amended envOK "q").1 rfl,
   (cleanup_completeness_amended envAskFail3 "q").2 "boom3" rfl⟩

/-- C2 counterexample: a SERP transport failure propagates out of
`search_web`'s caller and ends the run as an uncaught exception (process
exit code 1) — the pipeline does abort, refuting the claim that a failed
search degrades to a "no results" input. -/
theorem search_failure_aborts_counterexample :
    (mainRun envSerpFail "q").2 = .raised "net down" ∧
      exitCodeOf (mainRun envSerpFail "q").2 = 1 := ⟨rfl, rfl⟩

/-- C2 amended: a search transport failure (exception from the HTTP call
or JSON parse) propagates and prevents the run from completing
successfully; only a successfully parsed response with zero collected
snippets degrades to the "No results found." input for the web stage. -/
theorem search_failure_amended (env : Env) (q : String) (r : SerpResult) :
    (∀ e, env.serp = .error e → (mainRun env q).2 ≠ .success) ∧
      (collectSnippets r = [] → search_web r = "No results found.") := by
  constructor
  · intro e he
    rcases hrun : mainRun env q with ⟨tr, oc⟩
    simp only [mainRun] at hrun
    iterate 16 (all_goals try split at hrun)
    all_goals cases hrun
    all_goals simp_all
  · intro h
    simp [search_web, h]

/-- C2 amended, witnessed: `envSerpFail` (transport failure) never reaches
success, and an empty organic-results list yields the sentinel. -/
theorem search_failure_amended_witness :
    (mainRun envSerpFail "q").2 ≠ .success ∧
      search_web ⟨some []⟩ = "No results found." :=
  ⟨(search_failure_amended envSerpFail "q" ⟨some []⟩).1 "net down" rfl,
   (search_failure_amended envSerpFail "q" ⟨some []⟩).2 rfl⟩

/-- C4 counterexample: when the project client cannot be constructed, the
`except` block prints the error and `return`s, so `asyncio.run` completes
normally and the process exits 0 — not non-zero as claimed.  (The rest of
the claim holds: the trace is the single error print, so no agent was
contacted and no session opened.) -/
theorem config_error_exit_counterexample :
    exitCodeOf (mainRun envConfFail "q").2 = 0 ∧
      (mainRun envConfFail "q").1 =
        [Event.printedE "❌ Error initializing project client: bad conn"] :=
  ⟨rfl, rfl⟩

/-- C4 amended: on a project-client construction failure the run aborts
before any session is opened and no agent is contacted — the whole trace
is the one error print — but `main` returns normally, so the process
exits with code 0 rather than non-zero. -/
theorem config_error_amended (env : Env) (q : String) :
    ∀ e, env.projectClient = .error e →
      (mainRun env q).1 =
          [Event.printedE ("❌ Error initializing project client: " ++ e)] ∧
        countOpens (mainRun env q).1 = 0 ∧
        (∀ a, Event.getAgentE a ∉ (mainRun env q).1) ∧
        exitCodeOf (mainRun env q).2 = 0 := by
  intro e he
  simp [mainRun, he, countOpens, exitCodeOf]

/-- C4 amended, witnessed on `envConfFail`. -/
theorem config_error_amended_witness :
    (mainRun envConfFail "q").1 =
        [Event.printedE ("❌ Error initializing project client: " ++ "bad conn")] ∧
      countOpens (mainRun envConfFail "q").1 = 0 ∧
      (∀ a, Event.getAgentE a ∉ (mainRun envConfFail "q").1) ∧
      exitCodeOf (mainRun envConfFail "q").2 = 0 :=
  config_error_amended envConfFail "q" "bad conn" rfl

/-- C5: the summary stage's input is `combined_info`, a pure function of
the two upstream Responses — the labeled document section, a blank line,
then the labeled web section — so equal upstream Responses give a
byte-identical message; and on any run reaching stage 3, the message
posted to the summary thread is exactly `combined_info` of the recorded
stage-1 and stage-2 Responses. -/
theorem summary_input_deterministic (d w d' w' : String) :
    combined_info d w =
        "Document Agent info: " ++ d ++ "\n\n" ++ "Web Agent info: " ++ w ∧
      (d = d' → w = w' → combined_info d w = combined_info d' w') ∧
      (∀ (env : Env) (q g1 g2 g3 : String) (t1 t2 t3 : Nat) (r : SerpResult),
        env.projectClient = .ok () →
        env.getAgent AGENT1_ID = .ok g1 →
        env.getAgent AGENT2_ID = .ok g2 →
        env.getAgent AGENT3_ID = .ok g3 →
        env.createThread 0 = .ok t1 →
        env.addMessage t1 q = .ok () →
        env.getResponse t1 = .ok d →
        env.serp = .ok r →
        env.createThread 1 = .ok t2 →
        env.addMessage t2 (webMessage q (search_web r)) = .ok () →
        env.getResponse t2 = .ok w →
        env.createThread 2 = .ok t3 →
        env.addMessage t3 (combined_info d w) = .ok () →
        Event.addMessageE t3 (combined_info d w) ∈ (mainRun env q).1) := by
  refine ⟨rfl, ?_, ?_⟩
  · rintro rfl rfl; rfl
  · intro env q g1 g2 g3 t1 t2 t3 r h1 h2 h3 h4 h5 h6 h7 h8 h9 h10 h11 h12 h13
    simp only [mainRun, h1, h2, h3, h4, h5, h6, h7, h8, h9, h10, h11, h12, h13]
    split <;> simp

/-- C5 witnessed on `envOK`: the summary-thread message of the all-success
run is `combined_info "docR" "webR"`. -/
theorem summary_input_deterministic_witness :
    combined_info "docR" "webR" = combined_info "docR" "webR" ∧
      Event.addMessageE 2 (combined_info "docR" "webR") ∈ (mainRun envOK "q").1 :=
  ⟨(summary_input_deterministic "docR" "webR" "docR" "webR").2.1 rfl rfl,
   (summary_input_deterministic "docR" "webR" "docR" "webR").2.2 envOK "q"
     "agentDef" "agentDef" "agentDef" 0 1 2
     ⟨some [⟨some "snip1"⟩, ⟨none⟩, ⟨some "snip2"⟩]⟩
     rfl rfl rfl rfl rfl rfl rfl rfl rfl rfl rfl rfl rfl⟩

/-- C6: partial-failure semantics of the three-stage pipeline.  If stage
k's ask (`get_response`) raises: the run ends with that exception; the
Responses of stages before k have already been printed (reported); only
the sessions of stages up to k were opened; and no message is ever posted
to any thread other than those of stages up to k — stages after k are
never invoked.  Stated for k = 1, 2 and 3. -/
theorem stage_failure_semantics (env : Env) (q g1 g2 g3 d w e : String)
    (t1 t2 t3 : Nat) (r : SerpResult) :
    (env.projectClient = .ok () →
      env.getAgent AGENT1_ID = .ok g1 →
      env.getAgent AGENT2_ID = .ok g2 →
      env.getAgent AGENT3_ID = .ok g3 →
      env.createThread 0 = .ok t1 →
      env.addMessage t1 q = .ok () →
      env.getResponse t1 = .error e →
      (mainRun env q).2 = .raised e ∧
        countOpens (mainRun env q).1 = 1 ∧
        (∀ t m, Event.addMessageE t m ∈ (mainRun env q).1 → t = t1)) ∧
    (env.projectClient = .ok () →
      env.getAgent AGENT1_ID = .ok g1 →
      env.getAgent AGENT2_ID = .ok g2 →
      env.getAgent AGENT3_ID = .ok g3 →
      env.createThread 0 = .ok t1 →
      env.addMessage t1 q = .ok () →
      env.getResponse t1 = .ok d →
      env.serp = .ok r →
      env.createThread 1 = .ok t2 →
      env.addMessage t2 (webMessage q (search_web r)) = .ok () →
      env.getResponse t2 = .error e →
      (mainRun env q).2 = .raised e ∧
        Event.printedE d ∈ (mainRun env q).1 ∧
        countOpens (mainRun env q).1 = 2 ∧
        (∀ t m, Event.addMessageE t m ∈ (mainRun env q).1 → t = t1 ∨ t = t2)) ∧
    (env.projectClient = .ok () →
      env.getAgent AGENT1_ID = .ok g1 →
      env.getAgent AGENT2_ID = .ok g2 →
      env.getAgent AGENT3_ID = .ok g3 →
      env.createThread 0 = .ok t1 →
      env.addMessage t1 q = .ok () →
      env.getResponse t1 = .ok d →
      env.serp = .ok r →
      env.createThread 1 = .ok t2 →
      env.addMessage t2 (webMessage q (search_web r)) = .ok () →
      env.getResponse t2 = .ok w →
      env.createThread 2 = .ok t3 →
      env.addMessage t3 (combined_info d w) = .ok () →
      env.getResponse t3 = .error e →
      (mainRun env q).2 = .raised e ∧
        Event.printedE d ∈ (mainRun env q).1 ∧
        Event.printedE w ∈ (mainRun env q).1 ∧
        countOpens (mainRun env q).1 = 3 ∧
        (∀ t m, Event.addMessageE t m ∈ (mainRun env q).1 →
          t = t1 ∨ t = t2 ∨ t = t3)) := by
  refine ⟨?_, ?_, ?_⟩ <;> intros <;>
    simp only [mainRun, *] <;>
    simp [countOpens, List.countP_append, List.countP_cons] <;>
    tauto

/-- C6 witnessed: on `envAskFail2` (stage 2's ask raises "boom"), the
document Response "docR" was reported, two sessions were opened, and every
posted message went to thread 0 or thread 1. -/
theorem stage_failure_semantics_witness :
    (mainRun envAskFail2 "q").2 = .raised "boom" ∧
      Event.printedE "docR" ∈ (mainRun envAskFail2 "q").1 ∧
      countOpens (mainRun envAskFail2 "q").1 = 2 ∧
      (∀ t m, Event.addMessageE t m ∈ (mainRun envAskFail2 "q").1 →
        t = 0 ∨ t = 1) :=
  (stage_failure_semantics envAskFail2 "q" "agentDef" "agentDef" "agentDef"
    "docR" "webR" "boom" 0 1 2
    ⟨some [⟨some "snip1"⟩, ⟨none⟩, ⟨some "snip2"⟩]⟩).2.1
    rfl rfl rfl rfl rfl rfl rfl rfl rfl rfl rfl

/-- No `delete_agent` call ever occurs in the single-agent try-body. -/
theorem deleteAgentE_not_mem_singleTryBody (env : EnvS) (t : Nat)
    (label a : String) :
    Event.deleteAgentE a ∉ (singleTryBody env t label).1 := by
  rcases hb : singleTryBody env t label with ⟨ev, res⟩
  simp only [singleTryBody] at hb
  iterate 4 (all_goals try split at hb)
  all_goals cases hb
  all_goals simp

/-- No `delete_agent` call ever occurs in the pipeline's cleanup loop. -/
theorem deleteAgentE_not_mem_cleanupThreads (env : Env) (ts : List Nat)
    (a : String) :
    Event.deleteAgentE a ∉ cleanupThreads env ts := by
  induction ts with
  | nil => simp [cleanupThreads]
  | cons t ts ih =>
      unfold cleanupThreads
      cases env.deleteThread t <;> simp_all

/-- C7: the agent-reusing flows never delete an agent — for every
environment, no `delete_agent` call appears in the trace of
ai_agent_existing.py's run (which resolves a pre-existing agent by
identifier) nor in the trace of the multi-agent pipeline run (which
resolves three pre-existing agents); only threads are torn down.  The
`delete_agent` call exists solely in the provisioning flow `createRun`. -/
theorem reuse_never_deletes_agent (envS : EnvS) (env : Env) (q : String) :
    (∀ a, Event.deleteAgentE a ∉ (existingRun envS).1) ∧
      (∀ a, Event.deleteAgentE a ∉ (mainRun env q).1) := by
  constructor
  · intro a
    rcases hrun : existingRun envS with ⟨tr, oc⟩
    simp only [existingRun] at hrun
    iterate 6 (all_goals try split at hrun)
    all_goals cases hrun
    all_goals simp [deleteAgentE_not_mem_singleTryBody]
  · intro a
    rcases hrun : mainRun env q with ⟨tr, oc⟩
    simp only [mainRun] at hrun
    iterate 16 (all_goals try split at hrun)
    all_goals cases hrun
    all_goals simp [deleteAgentE_not_mem_cleanupThreads]

/-- C8 counterexample: in the provisioning flow (ai_agent_create.py), the
Response has been produced and printed, yet the `delete_thread` failure in
the `finally` block propagates and becomes the run's result — the cleanup
error is not swallowed, refuting the claim for this cleanup call. -/
theorem cleanup_swallow_counterexample :
    Event.printedE ("# TechSupportAdvisor: " ++ "vnetAnswer") ∈
        (createRun envSDelFail).1 ∧
      (createRun envSDelFail).2 = .raised "gone" := by
  constructor
  · simp [createRun, envSDelFail, envSOK, singleTryBody]
  · rfl

/-- C8 amended: only the multi-agent pipeline's cleanup loop swallows
deletion errors — there a failed `delete_thread` is caught and printed,
the remaining threads are still attempted, and the run's outcome stays
`success`; in the single-agent flows the `finally`-block `delete_thread`
has no handler, so its error propagates as the run's result even after
the Response was produced. -/
theorem cleanup_swallow_amended (env : Env) (q g1 g2 g3 d w s e : String)
    (t1 t2 t3 : Nat) (r : SerpResult) (envS : EnvS) (aid : String) (t : Nat) :
    (env.projectClient = .ok () →
      env.getAgent AGENT1_ID = .ok g1 →
      env.getAgent AGENT2_ID = .ok g2 →
      env.getAgent AGENT3_ID = .ok g3 →
      env.createThread 0 = .ok t1 →
      env.addMessage t1 q = .ok () →
      env.getResponse t1 = .ok d →
      env.serp = .ok r →
      env.createThread 1 = .ok t2 →
      env.addMessage t2 (webMessage q (search_web r)) = .ok () →
      env.getResponse t2 = .ok w →
      env.createThread 2 = .ok t3 →
      env.addMessage t3 (combined_info d w) = .ok () →
      env.getResponse t3 = .ok s →
      env.deleteThread t1 = .error e →
      (mainRun env q).2 = .success ∧
        Event.printedE ("❌ Error deleting thread " ++ toString t1 ++ ": " ++ e) ∈
          (mainRun env q).1 ∧
        countCloseAttempts (mainRun env q).1 = 3) ∧
    (envS.createAgent = .ok aid →
      envS.createThread = .ok t →
      envS.deleteThread t = .error e →
      (createRun envS).2 = .raised e) := by
  constructor
  · intro h1 h2 h3 h4 h5 h6 h7 h8 h9 h10 h11 h12 h13 h14 h15
    simp only [mainRun, h1, h2, h3, h4, h5, h6, h7, h8, h9, h10, h11, h12, h13, h14]
    refine ⟨by simp, ?_, ?_⟩
    · simp [cleanupThreads, h15]
    · simp [countCloseAttempts, List.countP_append,
        countP_del_cleanupThreads]
  · intro h1 h2 h3
    simp only [createRun, h1, h2, h3]

/-- C8 amended, witnessed: on `envCleanupFail` the pipeline run still
succeeds and prints the deletion error; on `envSDelFail` the provisioning
run's result is the deletion error. -/
theorem cleanup_swallow_amended_witness :
    ((mainRun envCleanupFail "q").2 = .success ∧
      Event.printedE ("❌ Error deleting thread " ++ toString 0 ++ ": " ++ "gone") ∈
        (mainRun envCleanupFail "q").1 ∧
      countCloseAttempts (mainRun envCleanupFail "q").1 = 3) ∧
    (createRun envSDelFail).2 = .raised "gone" :=
  ⟨(cleanup_swallow_amended envCleanupFail "q" "agentDef" "agentDef" "agentDef"
      "docR" "webR" "sumR" "gone" 0 1 2
      ⟨some [⟨some "snip1"⟩, ⟨none⟩, ⟨some "snip2"⟩]⟩ envSDelFail "agent123" 7).1
      rfl rfl rfl rfl rfl rfl rfl rfl rfl rfl rfl rfl rfl rfl rfl,
   (cleanup_swallow_amended envCleanupFail "q" "agentDef" "agentDef" "agentDef"
      "docR" "webR" "sumR" "gone" 0 1 2
      ⟨some [⟨some "snip1"⟩, ⟨none⟩, ⟨some "snip2"⟩]⟩ envSDelFail "agent123" 7).2
      rfl rfl rfl⟩

/-- C10: in the provisioning flow's `finally` block, the thread is deleted
strictly before the agent — the trace ends `[delete_thread, delete_agent]`
when the thread deletion succeeds — and when `delete_thread` raises,
`delete_agent` is never attempted: the trace ends at the thread-deletion
attempt, the created agent survives, and the exception propagates. -/
theorem provisioning_cleanup_order (env : EnvS) (aid : String) (t : Nat) :
    (env.createAgent = .ok aid →
      env.createThread = .ok t →
      ∀ e, env.deleteThread t = .error e →
        (∀ a, Event.deleteAgentE a ∉ (createRun env).1) ∧
          (∃ pre, (createRun env).1 = pre ++ [Event.deleteThreadE t]) ∧
          (createRun env).2 = .raised e) ∧
    (env.createAgent = .ok aid →
      env.createThread = .ok t →
      env.deleteThread t = .ok () →
        ∃ pre, (createRun env).1 =
          pre ++ [Event.deleteThreadE t, Event.deleteAgentE aid]) := by
  constructor
  · intro h1 h2 e h3
    simp only [createRun, h1, h2, h3]
    refine ⟨?_, ⟨_, rfl⟩, trivial⟩
    intro a
    simp [deleteAgentE_not_mem_singleTryBody]
  · intro h1 h2 h3
    simp only [createRun, h1, h2, h3]
    split <;> [skip; split] <;>
      exact ⟨[Event.createAgentE "TechSupportAdvisor", Event.createThreadE t] ++
        (singleTryBody env t "TechSupportAdvisor").1,
        by simp⟩

/-- C10 witnessed: on `envSDelFail` (thread deletion raises "gone") no
agent deletion occurs and the exception propagates; the trace ends at the
thread-deletion attempt. -/
theorem provisioning_cleanup_order_witness :
    ((∀ a, Event.deleteAgentE a ∉ (createRun envSDelFail).1) ∧
      (∃ pre, (createRun envSDelFail).1 = pre ++ [Event.deleteThreadE 7]) ∧
      (createRun envSDelFail).2 = .raised "gone") ∧
      (∃ pre, (createRun envSOK).1 =
        pre ++ [Event.deleteThreadE 7, Event.deleteAgentE "agent123"]) :=
  ⟨(provisioning_cleanup_order envSDelFail "agent123" 7).1 rfl rfl "gone" rfl,
   (provisioning_cleanup_order envSOK "agent123" 7).2 rfl rfl rfl⟩

/-- Split a character list at every newline, the inverse view of
Python's `"\n".join`. -/
def splitNl : List Char → List (List Char)
  | [] => [[]]
  | c :: rest =>
      if c = '\n' then [] :: splitNl rest
      else
        match splitNl rest with
        | [] => [[c]]
        | hd :: tl => (c :: hd) :: tl

/-- `splitNl` never returns the empty list of lines. -/
theorem splitNl_ne_nil (cs : List Char) : splitNl cs ≠ [] := by
  induction cs with
  | nil => simp [splitNl]
  | cons c rest ih =>
      unfold splitNl
      by_cases hc : c = '\n' <;> simp [hc]
      cases h : splitNl rest <;> simp

/-- A newline-free character list splits into the single line it is. -/
theorem splitNl_nlFree (cs : List Char) (h : ∀ c ∈ cs, c ≠ '\n') :
    splitNl cs = [cs] := by
  induction cs with
  | nil => rfl
  | cons c rest ih =>
      have hc : c ≠ '\n' := h c (List.mem_cons_self c rest)
      have hrest : splitNl rest = [rest] :=
        ih fun x hx => h x (List.mem_cons_of_mem c hx)
      simp [splitNl, hc, hrest]

/-- Splitting past a newline-free chunk followed by an explicit newline
peels off exactly that chunk as the first line. -/
theorem splitNl_append_nl (x ys : List Char) (h : ∀ c ∈ x, c ≠ '\n') :
    splitNl (x ++ '\n' :: ys) = x :: splitNl ys := by
  induction x with
  | nil => simp [splitNl]
  | cons c rest ih =>
      have hc : c ≠ '\n' := h c (List.mem_cons_self c rest)
      have hrest := ih fun d hd => h d (List.mem_cons_of_mem c hd)
      simp [splitNl, hc, hrest]

/-- `"\n".join` at the character level. -/
def interNl : List (List Char) → List Char
  | [] => []
  | [x] => x
  | x :: y :: rest => x ++ '\n' :: interNl (y :: rest)

/-- `joinN` agrees with the character-level join. -/
theorem joinN_data (l : List String) :
    (joinN l).data = interNl (l.map String.data) := by
  induction l with
  | nil => rfl
  | cons s rest ih =>
      cases rest with
      | nil => rfl
      | cons r rest' =>
          simp only [joinN, interNl, List.map_cons, String.data_append, ih]
          simp

/-- Joining non-empty, newline-free lines and splitting again recovers
exactly the original lines. -/
theorem splitNl_interNl (L : List (List Char)) (hL : L ≠ [])
    (h : ∀ x ∈ L, ∀ c ∈ x, c ≠ '\n') : splitNl (interNl L) = L := by
  induction L with
  | nil => exact absurd rfl hL
  | cons x rest ih =>
      cases rest with
      | nil =>
          simpa [interNl] using
            splitNl_nlFree x (h x (List.mem_cons_self x []))
      | cons y rest' =>
          have hx := h x (List.mem_cons_self x (y :: rest'))
          have ht : splitNl (interNl (y :: rest')) = y :: rest' :=
            ih (by simp) fun z hz c hc =>
              h z (List.mem_cons_of_mem x hz) c hc
          simp [interNl, splitNl_append_nl _ _ hx, ht]

/-- C9: the digest is built from exactly the result items whose snippet
is present and non-empty.  (1) Inserting an item with a missing or empty
snippet anywhere leaves `search_web`'s output unchanged — such items are
skipped entirely.  (2) Every collected snippet is non-empty.  (3) When at
least one snippet is collected (and snippets themselves contain no
newline), the digest's newline-split lines are exactly the collected
snippets — in particular no line of the digest is blank. -/
theorem digest_skips_empty_snippets (pre post : List SerpItem)
    (it : SerpItem) (r : SerpResult) :
    ((it.snippet = none ∨ it.snippet = some "") →
      search_web ⟨some (pre ++ it :: post)⟩ = search_web ⟨some (pre ++ post)⟩) ∧
      (∀ s ∈ collectSnippets r, s ≠ "") ∧
      ((∀ s ∈ collectSnippets r, ∀ c ∈ s.data, c ≠ '\n') →
        collectSnippets r ≠ [] →
        splitNl (search_web r).data = (collectSnippets r).map String.data ∧
          [] ∉ splitNl (search_web r).data) := by
  refine ⟨?_, fun s hs => mem_collectSnippets_ne_empty hs, ?_⟩
  · intro hit
    have hcoll : collectSnippets ⟨some (pre ++ it :: post)⟩ =
        collectSnippets ⟨some (pre ++ post)⟩ := by
      simp only [collectSnippets, List.filterMap_append, List.filterMap_cons]
      rcases hit with h | h <;> simp [h]
    simp only [search_web, hcoll]
  · intro hnl hne
    have hjoin : search_web r = joinN (collectSnippets r) := by
      simp [search_web, hne]
    have hsplit :
        splitNl (search_web r).data = (collectSnippets r).map String.data := by
      rw [hjoin, joinN_data]
      refine splitNl_interNl _ (by simpa using hne) ?_
      intro x hx c hc
      obtain ⟨s, hs, rfl⟩ := List.mem_map.mp hx
      exact hnl s hs c hc
    refine ⟨hsplit, ?_⟩
    rw [hsplit]
    intro hmem
    obtain ⟨s, hs, hdata⟩ := List.mem_map.mp hmem
    exact mem_collectSnippets_ne_empty hs (by
      cases s with
      | mk data => simpa [String.ext_iff] using hdata.symm)

/-- C9 witnessed: inserting a snippet-less item between "a" and "b"
leaves the digest unchanged, and the digest of ["a", "b"] splits into
exactly those two non-blank lines. -/
theorem digest_skips_empty_snippets_witness :
    search_web ⟨some ([⟨some "a"⟩] ++ ⟨none⟩ :: [⟨some "b"⟩])⟩ =
        search_web ⟨some ([⟨some "a"⟩] ++ [⟨some "b"⟩])⟩ ∧
      splitNl (search_web ⟨some [⟨some "a"⟩, ⟨some "b"⟩]⟩).data =
        (collectSnippets ⟨some [⟨some "a"⟩, ⟨some "b"⟩]⟩).map String.data ∧
      [] ∉ splitNl (search_web ⟨some [⟨some "a"⟩, ⟨some "b"⟩]⟩).data :=
  ⟨(digest_skips_empty_snippets [⟨some "a"⟩] [⟨some "b"⟩] ⟨none⟩
      ⟨some [⟨some "a"⟩, ⟨some "b"⟩]⟩).1 (Or.inl rfl),
   (digest_skips_empty_snippets [⟨some "a"⟩] [⟨some "b"⟩] ⟨none⟩
      ⟨some [⟨some "a"⟩, ⟨some "b"⟩]⟩).2.2 (by decide) (by decide)⟩

end PharmacyAI
